import Mathlib

/-!
Shallow embedding of the ENSO_metrics repository (src/lib/EnsoMetricsLib.py and
src/plots/driver_portraitplot.py) together with theorems checking the
natural-language specification against it.

Python values appearing in the `**kwargs` configuration dictionaries are
embedded as the inductive type `PyVal`; a Python dict is embedded as an
association list `List (String × PyVal)` with Python dict semantics
(lookup, overwrite-or-append assignment).  Numeric data is embedded as `ℚ`.
Fallible code returns `Except`.
-/

/-- Embedding of the Python values that flow through the metric functions'
configuration keyword arguments. -/
inductive PyVal where
  | none
  | bool (b : Bool)
  | int (n : Int)
  | str (s : String)
  | dict (entries : List (String × PyVal))
  deriving Repr, BEq

/-- Python `isinstance(v, int)`: true for `int` and also for `bool`
(Python's `bool` is a subclass of `int`). -/
def PyVal.isInstanceInt : PyVal → Bool
  | .int _ => true
  | .bool _ => true
  | _ => false

/-- The integer value of a Python `int` (with `bool` coerced as in Python);
`0` for the other constructors, which never reach the arithmetic. -/
def PyVal.asInt : PyVal → Int
  | .int n => n
  | .bool b => if b then 1 else 0
  | _ => 0

/-- Python dict lookup `kwargs[k]` returning `Option`: `some v` when the key
is present, `none` standing for a raised `KeyError`. -/
def kwLookup (kwargs : List (String × PyVal)) (k : String) : Option PyVal :=
  (kwargs.find? (fun p => p.1 == k)).map Prod.snd

/-- Python dict assignment `kwargs[k] = v`: overwrite the first binding of
`k` when present, append the binding otherwise. -/
def kwSet : List (String × PyVal) → String → PyVal → List (String × PyVal)
  | [], k, v => [(k, v)]
  | (k0, v0) :: rest, k, v =>
      if k0 == k then (k, v) :: rest else (k0, v0) :: kwSet rest k v

/-- Embedding of the `needed_kwarg` loop that opens every metric function
(for example src/lib/EnsoMetricsLib.py lines 120-125):
`for arg in needed_kwarg: try kwargs[arg] except: kwargs[arg] = DefaultArgValues(arg)`.
`defaults` stands for `KeyArgLib.DefaultArgValues`, which is external to src. -/
def fillNeededKwargs (defaults : String → PyVal) :
    List String → List (String × PyVal) → List (String × PyVal)
  | [], kwargs => kwargs
  | arg :: rest, kwargs =>
      fillNeededKwargs defaults rest
        (if (kwLookup kwargs arg).isSome then kwargs
         else kwSet kwargs arg (defaults arg))

/-- Embedding of an unconditional Python dict access `kwargs[k]`: the
`error` case stands for the uncaught `KeyError` Python raises. -/
def getKwarg (kwargs : List (String × PyVal)) (k : String) : Except String PyVal :=
  match kwLookup kwargs k with
  | some v => Except.ok v
  | Option.none => Except.error k

/-- The data carried by the too-short time-period error every metric function
raises (src/lib/EnsoMetricsLib.py lines 204-216 build it inline for
`BiasSstRmse`; line 3536 builds it through `EnsoErrorsWarnings.TooShortTimePeriod`
for `EnsoAmpl`); the message always contains the metric name, the actual
series length and the required minimum. -/
structure TooShortTimePeriodError where
  metricName : String
  actualLength : Nat
  requiredMinimum : Int
  deriving Repr, DecidableEq

/-- Embedding of the minimum-length guard shared by every metric function
(src/lib/EnsoMetricsLib.py lines 204-216, 3533-3536 and the analogous block in
each of the other metric functions):
`if isinstance(kwargs['min_time_steps'], int): if len(series) < mini: raise`. -/
def checkMinTimeSteps (metricName : String) (minTimeSteps : PyVal)
    (seriesLength : Nat) : Except TooShortTimePeriodError Unit :=
  if minTimeSteps.isInstanceInt then
    if (seriesLength : Int) < minTimeSteps.asInt then
      Except.error ⟨metricName, seriesLength, minTimeSteps.asInt⟩
    else Except.ok ()
  else Except.ok ()

/-- Sequential model-then-observations form of the guard used by the
model/observations metric functions (src/lib/EnsoMetricsLib.py lines 204-216). -/
def checkMinTimeStepsModelObs (metricName : String) (minTimeSteps : PyVal)
    (lenModel lenObs : Nat) : Except TooShortTimePeriodError Unit := do
  checkMinTimeSteps metricName minTimeSteps lenModel
  checkMinTimeSteps metricName minTimeSteps lenObs

/-- The recognized keys of a `regridding` configuration dict
(src/lib/EnsoMetricsLib.py lines 240-241, repeated verbatim in every
metric function that regrids). -/
def knownRegridArgs : List String :=
  ["model_orand_obs", "newgrid", "missing", "order", "mask", "newgrid_name",
   "regridder", "regridTool", "regridMethod"]

/-- The keys of a `regridding` dict that fall outside the known set
(src/lib/EnsoMetricsLib.py line 242: `set(kwargs['regridding']) - known_args`). -/
def extraRegridArgs (entries : List (String × PyVal)) : List String :=
  (entries.map Prod.fst).filter (fun k => !(knownRegridArgs.contains k))

/-- Embedding of the regridding step of the RMSE metric functions
(src/lib/EnsoMetricsLib.py lines 238-245).  When the `regridding` keyword is a
dict, unknown keys are reported through `EnsoErrorsWarnings.UnknownKeyArg`.
Modelled from the spec: `EnsoErrorsWarnings` is not under src and the spec
says an unrecognized keyword in a `regridding` dict is fatal to the metric
call, so `UnknownKeyArg` is embedded as `Except.error` carrying the offending
key set.  `TwoVarRegrid` is out-of-scope toolkit code abstracted as the
`regrid` parameter. -/
def regridStep {Field : Type} (regrid : Field → Field → Field × Field)
    (regridding : PyVal) (model obs : Field) :
    Except (List String) (Field × Field) :=
  match regridding with
  | .dict entries =>
      if extraRegridArgs entries ≠ [] then Except.error (extraRegridArgs entries)
      else Except.ok (regrid model obs)
  | _ => Except.ok (model, obs)

/-- numpy.sign on an embedded rational. -/
def pySign (q : ℚ) : Int := if 0 < q then 1 else if q < 0 then -1 else 0

/-- Embedding of the sign-agreement statistic of `EnsoPrJjaTel`
(src/lib/EnsoMetricsLib.py lines 4156-4157), stored under the key `value2`
of the output record (line 4165):
`sum([1. for vmod, vobs in zip(a, b) if sign(vmod) == sign(vobs)]) / len(a)`. -/
def signAgreement (modelComposites obsComposites : List ℚ) : ℚ :=
  (((modelComposites.zip obsComposites).filter
      (fun p => pySign p.1 == pySign p.2)).length : ℚ) /
    (modelComposites.length : ℚ)

/-- Output-record keys of the nine Bias*Rmse and four Seasonal*Rmse metric
functions (src/lib/EnsoMetricsLib.py lines 260-265, 515-520, 770-775,
1017-1022, 1272-1277, 1527-1532, 1774-1779, 2031-2036, 2288-2293, 5840-5845,
6104-6109, 6366-6371, 6630-6635). -/
def rmseMetricKeys : List String :=
  ["name", "value", "value_error", "units", "method", "nyears_model",
   "nyears_observations", "time_frequency", "time_period_model",
   "time_period_observations", "ref", "dive_down_diag"]

/-- Output-record keys of the five EnsoAlpha* functions and EnsoMu
(src/lib/EnsoMetricsLib.py lines 2488-2493, 2724-2729, 2924-2929, 3160-3165,
3401-3406, 3762-3767). -/
def alphaMetricKeys : List String :=
  ["name", "value", "value_error", "units", "method", "method_nonlinearity",
   "nyears", "time_frequency", "time_period", "ref", "nonlinearity",
   "nonlinearity_error"]

/-- Output-record keys of EnsoAmpl and EnsoSeasonality
(src/lib/EnsoMetricsLib.py lines 3559-3562, 4335-4338). -/
def simpleMetricKeys : List String :=
  ["name", "value", "value_error", "units", "method", "nyears",
   "time_frequency", "time_period", "ref"]

/-- Output-record keys of EnsoPrJjaTel (src/lib/EnsoMetricsLib.py lines
4163-4170). -/
def ensoPrJjaTelKeys : List String :=
  ["name", "value", "value_error", "units", "method", "value2", "value_error2",
   "units2", "nyears_model", "nyears_observations", "nina_model", "nino_model",
   "nina_observations", "nino_observations", "time_frequency",
   "time_period_model", "time_period_observations", "ref", "dive_down_diag"]

/-- Output-record keys of the Nina/Nino lon and time-series composite metric
functions (src/lib/EnsoMetricsLib.py lines 4698-4704, 5065-5071, 5320-5326,
5575-5581). -/
def eventCompositeMetricKeys : List String :=
  ["name", "value", "value_error", "units", "method", "nyears_model",
   "nyears_observations", "events_model", "events_observations",
   "time_frequency", "time_period_model", "time_period_observations", "ref",
   "dive_down_diag"]

/-- The output-record key list of each metric function of
src/lib/EnsoMetricsLib.py, keyed by function name, exactly as written at the
26 record-construction sites. -/
def metricOutputKeys : List (String × List String) :=
  [("BiasSstRmse", rmseMetricKeys), ("BiasSstLatRmse", rmseMetricKeys),
   ("BiasSstLonRmse", rmseMetricKeys), ("BiasPrRmse", rmseMetricKeys),
   ("BiasPrLatRmse", rmseMetricKeys), ("BiasPrLonRmse", rmseMetricKeys),
   ("BiasTauxRmse", rmseMetricKeys), ("BiasTauxLatRmse", rmseMetricKeys),
   ("BiasTauxLonRmse", rmseMetricKeys),
   ("EnsoAlphaLhf", alphaMetricKeys), ("EnsoAlphaLwr", alphaMetricKeys),
   ("EnsoAlphaShf", alphaMetricKeys), ("EnsoAlphaSwr", alphaMetricKeys),
   ("EnsoAlphaThf", alphaMetricKeys), ("EnsoMu", alphaMetricKeys),
   ("EnsoAmpl", simpleMetricKeys), ("EnsoSeasonality", simpleMetricKeys),
   ("EnsoPrJjaTel", ensoPrJjaTelKeys),
   ("NinaSstLonRmse", eventCompositeMetricKeys),
   ("NinoSstLonRmse", eventCompositeMetricKeys),
   ("NinaSstTsRmse", eventCompositeMetricKeys),
   ("NinoSstTsRmse", eventCompositeMetricKeys),
   ("SeasonalPrLatRmse", rmseMetricKeys), ("SeasonalPrLonRmse", rmseMetricKeys),
   ("SeasonalSstLatRmse", rmseMetricKeys),
   ("SeasonalSstLonRmse", rmseMetricKeys)]

/-- The fixed key set named by the spec, with the model/observed variants of
`nyears` and `time_period` used by the two-dataset metric functions. -/
def specCoreKeys : List String :=
  ["name", "value", "value_error", "units", "method", "nyears", "nyears_model",
   "nyears_observations", "time_frequency", "time_period", "time_period_model",
   "time_period_observations", "ref"]

/-- The optional additional keys the spec claims are the only ones. -/
def specOptionalKeys : List String :=
  ["nonlinearity", "nonlinearity_error", "value2", "dive_down_diag"]

/-- The optional additional keys that actually occur across the 26 output
records of src/lib/EnsoMetricsLib.py. -/
def actualOptionalKeys : List String :=
  ["nonlinearity", "nonlinearity_error", "method_nonlinearity", "value2",
   "value_error2", "units2", "dive_down_diag", "events_model",
   "events_observations", "nina_model", "nino_model", "nina_observations",
   "nino_observations"]

/-- Decidable record-shape property: the record carries the full core key set
(with either the single or the model/observed variants of `nyears` and
`time_period`) and every key is a core key or belongs to `optional`. -/
def recordKeysConform (optional : List String) (keys : List String) : Bool :=
  keys.contains "name" && keys.contains "value" && keys.contains "value_error" &&
  keys.contains "units" && keys.contains "method" &&
  keys.contains "time_frequency" && keys.contains "ref" &&
  (keys.contains "nyears" ||
    (keys.contains "nyears_model" && keys.contains "nyears_observations")) &&
  (keys.contains "time_period" ||
    (keys.contains "time_period_model" &&
      keys.contains "time_period_observations")) &&
  keys.all (fun k => specCoreKeys.contains k || optional.contains k)

/-- The `needed_kwarg` list shared by the nine Bias*Rmse and four
Seasonal*Rmse metric functions (src/lib/EnsoMetricsLib.py lines 121-122,
367-368, 622-623, 877-878, 1124-1125, 1379-1380, 1634-1635, 1882-1883,
2139-2140, 5683-5684, 5947-5948, 6211-6212, 6473-6474); it contains
`regridding`. -/
def rmseNeededKwarg : List String :=
  ["detrending", "frequency", "min_time_steps", "normalization", "regridding",
   "smoothing", "time_bounds_model", "time_bounds_obs"]

/-- The `needed_kwarg` list of `NinaSstLonRmse`
(src/lib/EnsoMetricsLib.py lines 4435-4436); `regridding` is missing even
though line 4659 reads `kwargs['regridding']` unconditionally. -/
def ninaSstLonRmseNeededKwarg : List String :=
  ["detrending", "frequency", "min_time_steps", "normalization", "smoothing",
   "time_bounds_model", "time_bounds_obs"]

/-- The `needed_kwarg` list of `NinoSstLonRmse`
(src/lib/EnsoMetricsLib.py lines 4801-4802); `regridding` is missing even
though line 5026 reads `kwargs['regridding']` unconditionally. -/
def ninoSstLonRmseNeededKwarg : List String :=
  ["detrending", "frequency", "min_time_steps", "normalization", "smoothing",
   "time_bounds_model", "time_bounds_obs"]

/-- The `needed_kwarg` list of `EnsoPrJjaTel`
(src/lib/EnsoMetricsLib.py lines 3891-3892). -/
def ensoPrJjaTelNeededKwarg : List String :=
  ["detrending", "frequency", "min_time_steps", "normalization", "smoothing",
   "time_bounds_model", "time_bounds_obs"]

/-- What the smoothing-related part of an `EnsoPrJjaTel` call does to its
kwargs: the smoothing configuration seen by the SST (event-detection) phase,
the one seen by the precipitation (composite) phase, and the kwargs dict
left behind on return. -/
structure SmoothingTrace where
  sstPhaseSmoothing : Option PyVal
  prPhaseSmoothing : Option PyVal
  finalKwargs : List (String × PyVal)
  deriving Repr

/-- Embedding of the kwargs flow of `EnsoPrJjaTel` as far as the `smoothing`
option is concerned (src/lib/EnsoMetricsLib.py): the `needed_kwarg` fill at
lines 3891-3896, the SST reads and preprocessing passing `**kwargs`
(lines 3907-4023), the save-and-override at lines 4038-4041
(`smooth = deepcopy(kwargs['smoothing']); kwargs['smoothing'] = False`),
the precipitation reads and preprocessing passing `**kwargs`
(lines 4050-4147), and the restore at lines 4148-4150
(`kwargs['smoothing'] = smooth`). -/
def ensoPrJjaTelSmoothingFlow (defaults : String → PyVal)
    (kwargs0 : List (String × PyVal)) : SmoothingTrace :=
  let kwargs1 := fillNeededKwargs defaults ensoPrJjaTelNeededKwarg kwargs0
  let sstPhase := kwLookup kwargs1 "smoothing"
  let saved := kwLookup kwargs1 "smoothing"
  let kwargs2 :=
    match saved with
    | some _ => kwSet kwargs1 "smoothing" (PyVal.bool false)
    | Option.none => kwargs1
  let prPhase := kwLookup kwargs2 "smoothing"
  let kwargs3 :=
    match saved with
    | some v => kwSet kwargs2 "smoothing" v
    | Option.none => kwargs2
  ⟨sstPhase, prPhase, kwargs3⟩

/-- The data carried by the fatal missing-reference error of the plotting
driver (src/plots/driver_portraitplot.py lines 339-345): it names the
project, the metric collection, the model, the metric and the available
reference list. -/
structure MissingReferenceError where
  project : String
  metricCollection : String
  model : String
  metric : String
  references : List String
  deriving Repr, DecidableEq

/-- Embedding of the reference-selection logic of the plotting driver's main
loop (src/plots/driver_portraitplot.py lines 330-352): `ref` is the preferred
reference produced by `get_reference` (lines 165-170, with the
`except: ref = "Tropflux"` fallback of line 328) and `listRef` holds the
reference names available in the metric record.  The Bool of the result
records whether the warning of lines 346-352 is emitted.
`EnsoErrorsWarnings.MyError` is not under src; modelled from the spec, which
calls this case fatal, as `Except.error`. -/
def selectReference (project mc model metric : String) (ref : String)
    (listRef : List String) :
    Except MissingReferenceError (String × Bool) :=
  if ref ∈ listRef then Except.ok (ref, false)
  else if "ERA-Interim" ∈ listRef then Except.ok ("ERA-Interim", true)
  else if "ERA-Interim_ERA-Interim" ∈ listRef then
    Except.ok ("ERA-Interim_ERA-Interim", true)
  else Except.error ⟨project, mc, model, metric, listRef⟩

/-- Directory-glob matching for patterns made of literal characters and the
single-character wildcard, the only constructs in the driver's file
pattern. -/
def globMatch : List Char → List Char → Bool
  | [], [] => true
  | p :: ps, c :: cs => (p == '?' || p == c) && globMatch ps cs
  | _, _ => false

/-- Glob matching on strings. -/
def globMatchStr (pattern s : String) : Bool :=
  globMatch pattern.data s.data

/-- The JSON file-name pattern of the plotting driver
(src/plots/driver_portraitplot.py line 299):
`project + "_" + experiment + "_" + metric_collection + "_v2019????_modified.json"`. -/
def jsonGlobPattern (project experiment mc : String) : String :=
  project ++ "_" ++ experiment ++ "_" ++ mc ++ "_v2019????_modified.json"

/-- Embedding of the file selection of `read_data`
(src/plots/driver_portraitplot.py line 300):
`list(GLOBiglob(OSpath__join(path_in, lname)))[0]`, the first directory entry
matching the pattern (`none` standing for the IndexError raised when no entry
matches). -/
def selectJsonFile (files : List String) (project experiment mc : String) :
    Option String :=
  (files.filter
    (fun f => globMatchStr (jsonGlobPattern project experiment mc) f)).head?

/-- The nested JSON values consumed by the plotting driver. -/
inductive Json where
  | null
  | num (q : ℚ)
  | str (s : String)
  | obj (fields : List (String × Json))
  deriving Repr, BEq

/-- JSON object field lookup. -/
def Json.get : Json → String → Option Json
  | .obj fields, k => (fields.find? (fun p => p.1 == k)).map Prod.snd
  | _, _ => Option.none

/-- The full indexing path of the plotting driver: `read_data` returns
`data["RESULTS"]["model"]` (src/plots/driver_portraitplot.py line 304) and
the main loop reads `data_json[mod]["value"][met]["metric"][my_ref]["value"]`
(lines 322, 329, 353-356). -/
def readPlottedValue (data : Json) (model met ref : String) : Option Json :=
  (((((((data.get "RESULTS").bind (fun j => j.get "model")).bind
      (fun j => j.get model)).bind (fun j => j.get "value")).bind
      (fun j => j.get met)).bind (fun j => j.get "metric")).bind
      (fun j => j.get ref)).bind (fun j => j.get "value")

/-- A JSON document of exactly the interchange shape the driver consumes,
holding one plotted value. -/
def mkResultsJson (model met ref : String) (v : Json) : Json :=
  Json.obj [("RESULTS", Json.obj [("model", Json.obj [(model, Json.obj
    [("value", Json.obj [(met, Json.obj [("metric", Json.obj [(ref, Json.obj
      [("value", v)])])])])])])])]

/-- Modelled from the spec: the seasonal reduction inside
`EnsoUvcdatToolsLib.DetectEvents`, which is not under src (spec section 4.2).
The monthly index series is reduced to one value per year by averaging the
named season's months; the season is given by its month offsets relative to
the December of the event year (NDJ is -1,0,1 and DJF is 0,1,2), so a season
spanning the year boundary attributes the event to its December's calendar
year.  Years whose season months fall outside the record give no value. -/
def seasonalValue (series : List ℚ) (seasonOffsets : List ℤ) (year : ℕ) :
    Option ℚ :=
  let idxs := seasonOffsets.map (fun o => (12 * (year : ℤ) + 11) + o)
  if seasonOffsets ≠ [] ∧ ∀ i ∈ idxs, 0 ≤ i ∧ i < (series.length : ℤ) then
    some ((idxs.map (fun i => series.getD i.toNat 0)).sum /
      (seasonOffsets.length : ℚ))
  else Option.none

/-- Modelled from the spec: `EnsoUvcdatToolsLib.DetectEvents`, which is not
under src (spec section 4.2; called at src/lib/EnsoMetricsLib.py lines
4019-4023 and 5296-5298).  A year is an event when its seasonal value,
first divided by `sigma` when `normalization` holds (`sigma` stands for the
series' overall standard deviation computed by the out-of-scope toolkit
`Std` primitive), satisfies `threshold ≤ value` for the warm sign
(`nino = true`) or `value ≤ threshold` for the cold sign (`nino = false`,
threshold given negative); years come out ascending and duplicate-free. -/
def detectEvents (series : List ℚ) (seasonOffsets : List ℤ) (threshold : ℚ)
    (normalization : Bool) (sigma : ℚ) (nino : Bool) : List ℕ :=
  (List.range (series.length / 12)).filter (fun y =>
    match seasonalValue series seasonOffsets y with
    | some v =>
        let v1 := if normalization then v / sigma else v
        if nino then decide (threshold ≤ v1) else decide (v1 ≤ threshold)
    | Option.none => false)

/-- Modelled from the spec: the window extraction of
`EnsoUvcdatToolsLib.Composite` in windowed mode, which is not under src
(spec section 4.3): for an event year, the `12*w` monthly values aligned so
the event's December (series index `12*year + 11`) sits at window position
`12*(w/2) + 11`; `none` when the window runs past either end of the
record. -/
def compositeWindow (series : List ℚ) (w : ℕ) (year : ℕ) :
    Option (List ℚ) :=
  let start : ℤ := 12 * ((year : ℤ) - (w / 2 : ℕ))
  if 0 ≤ start ∧ start + 12 * w ≤ (series.length : ℤ) then
    some ((List.range (12 * w)).map (fun j => series.getD (start.toNat + j) 0))
  else Option.none

/-- Modelled from the spec: `EnsoUvcdatToolsLib.Composite` in windowed mode,
which is not under src (spec section 4.3; called at
src/lib/EnsoMetricsLib.py lines 5303-5305 with `nbr_years_window`): events
whose window exceeds the record bounds are dropped and the composite is the
pointwise mean of the retained windows (the degenerate zero-window case,
left undefined by the spec, comes out as the zero series through rational
division by zero). -/
def compositeWindowed (series : List ℚ) (eventYears : List ℕ) (w : ℕ) :
    List ℚ :=
  let windows := eventYears.filterMap (compositeWindow series w)
  (List.range (12 * w)).map (fun j =>
    (windows.map (fun win => win.getD j 0)).sum / (windows.length : ℚ))

/-- Ten years of synthetic monthly data whose DJF seasonal values for years
0, 1 and 2 sit a quarter below, exactly at, and a quarter above a threshold
of one half (the spec's threshold-boundary scenario); all other months sit
far below. -/
def c3Series : List ℚ :=
  (List.range 120).map (fun i =>
    if i = 11 ∨ i = 12 ∨ i = 13 then 1/4
    else if i = 23 ∨ i = 24 ∨ i = 25 then 1/2
    else if i = 35 ∨ i = 36 ∨ i = 37 then 3/4
    else -5)

/-- A five-year (60-month) constant record for the composite
boundary-exclusion scenario: no six-year window fits inside it. -/
def c4Series : List ℚ := List.replicate 60 2

/-- A seven-year (84-month) constant record in which a six-year window
around year 3 fits. -/
def c4SeriesLong : List ℚ := List.replicate 84 3

/-- C1: an integer `min_time_steps` makes any shorter series fatal, with the
metric name, the actual length and the required minimum reported; any
non-integer `min_time_steps` disables the check
(src/lib/EnsoMetricsLib.py lines 204-216 and 3533-3536). -/
theorem C1_min_time_steps_check (metricName : String) (minTimeSteps : PyVal)
    (seriesLength : Nat) :
    (∀ mini : Int, minTimeSteps = PyVal.int mini →
      ((seriesLength : Int) < mini →
        checkMinTimeSteps metricName minTimeSteps seriesLength =
          Except.error ⟨metricName, seriesLength, mini⟩) ∧
      (mini ≤ (seriesLength : Int) →
        checkMinTimeSteps metricName minTimeSteps seriesLength = Except.ok ())) ∧
    (minTimeSteps.isInstanceInt = false →
      checkMinTimeSteps metricName minTimeSteps seriesLength = Except.ok ()) := by
  constructor
  · rintro mini rfl
    constructor
    · intro hlt
      simp [checkMinTimeSteps, PyVal.isInstanceInt, PyVal.asInt, hlt]
    · intro hge
      simp [checkMinTimeSteps, PyVal.isInstanceInt, PyVal.asInt, not_lt.mpr hge]
  · intro hnot
    simp [checkMinTimeSteps, hnot]

/-- Witness for C1 at concrete inputs: a 120-step series against a 360-step
minimum fails with the full report, and `min_time_steps = None` skips the
check. -/
theorem C1_min_time_steps_check_witness :
    checkMinTimeSteps "BiasSstRmse" (PyVal.int 360) 120 =
      Except.error ⟨"BiasSstRmse", 120, 360⟩ ∧
    checkMinTimeSteps "EnsoAmpl" PyVal.none 120 = Except.ok () := by
  constructor
  · exact ((C1_min_time_steps_check "BiasSstRmse" (PyVal.int 360) 120).1 360 rfl).1
      (by decide)
  · exact (C1_min_time_steps_check "EnsoAmpl" PyVal.none 120).2 (by decide)

/-- C2: a `regridding` dict with any key outside the known set makes the
metric call fail with the offending key set; with only known keys the two
fields are regridded and the computation continues
(src/lib/EnsoMetricsLib.py lines 238-245). -/
theorem C2_regridding_key_check {Field : Type}
    (regrid : Field → Field → Field × Field)
    (entries : List (String × PyVal)) (model obs : Field) :
    (extraRegridArgs entries ≠ [] →
      regridStep regrid (PyVal.dict entries) model obs =
        Except.error (extraRegridArgs entries)) ∧
    ((∀ k ∈ entries.map Prod.fst, k ∈ knownRegridArgs) →
      regridStep regrid (PyVal.dict entries) model obs =
        Except.ok (regrid model obs)) := by
  constructor
  · intro h
    simp [regridStep, h]
  · intro h
    have hnil : extraRegridArgs entries = [] := by
      simp only [extraRegridArgs, List.filter_eq_nil_iff]
      intro k hk
      simpa using h k hk
    simp [regridStep, hnil]

/-- Witness for C2 at concrete inputs: an unrecognized key `foo` is fatal
and reported, and a dict with only recognized keys lets the regridded
fields through. -/
theorem C2_regridding_key_check_witness :
    regridStep (fun (a b : Int) => (a + 1, b + 1))
        (PyVal.dict [("foo", PyVal.bool true)]) 3 4 = Except.error ["foo"] ∧
    regridStep (fun (a b : Int) => (a + 1, b + 1))
        (PyVal.dict [("newgrid", PyVal.str "g")]) 3 4 = Except.ok (4, 5) := by
  constructor
  · exact (C2_regridding_key_check (fun a b => (a + 1, b + 1))
      [("foo", PyVal.bool true)] 3 4).1 (by decide)
  · exact (C2_regridding_key_check (fun a b => (a + 1, b + 1))
      [("newgrid", PyVal.str "g")] 3 4).2 (by decide)

theorem list_zip_self {α : Type} (l : List α) :
    l.zip l = l.map (fun x => (x, x)) := by
  induction l with
  | nil => rfl
  | cons x xs ih => simp [List.zip_cons_cons, ih]

theorem pySign_self_beq (x : ℚ) : (pySign x == pySign x) = true := by
  simp

theorem pySign_neg_beq (x : ℚ) (hx : x ≠ 0) :
    (pySign x == pySign (-x)) = false := by
  rcases lt_trichotomy x 0 with h | h | h
  · have h1 : pySign x = -1 := by simp [pySign, h, asymm h]
    have h2 : pySign (-x) = 1 := by simp [pySign, neg_pos.mpr h]
    simp [h1, h2]
  · exact absurd h hx
  · have h1 : pySign x = 1 := by simp [pySign, h]
    have h2 : pySign (-x) = -1 := by
      simp [pySign, neg_neg_iff_pos.mpr h, asymm (neg_neg_iff_pos.mpr h)]
    simp [h1, h2]

/-- C5: the second statistic of `EnsoPrJjaTel` (key `value2`) is the fraction
of regions where the model and observed composite differences agree in sign:
for a non-empty region list it lies in the unit interval, is 1 on identical
lists and 0 on elementwise-negated zero-free lists
(src/lib/EnsoMetricsLib.py lines 4156-4157 and 4165). -/
theorem C5_sign_agreement (a b : List ℚ) (ha : a ≠ []) :
    (0 ≤ signAgreement a b ∧ signAgreement a b ≤ 1) ∧
    (b = a → signAgreement a b = 1) ∧
    (b = a.map (fun x => -x) → (∀ x ∈ a, x ≠ 0) → signAgreement a b = 0) := by
  have hlen : 0 < (a.length : ℚ) := by
    exact_mod_cast List.length_pos.mpr ha
  refine ⟨⟨?_, ?_⟩, ?_, ?_⟩
  · exact div_nonneg (by positivity) hlen.le
  · rw [signAgreement, div_le_one hlen]
    exact_mod_cast le_trans (List.length_filter_le _ _)
      (by simp [List.length_zip])
  · intro hb
    rw [hb]
    have hfil : (a.zip a).filter (fun p => pySign p.1 == pySign p.2) = a.zip a := by
      apply List.filter_eq_self.mpr
      intro p hp
      rw [list_zip_self] at hp
      obtain ⟨x, _, rfl⟩ := List.mem_map.mp hp
      exact pySign_self_beq x
    rw [signAgreement, hfil, list_zip_self, List.length_map]
    exact div_self hlen.ne'
  · intro hb hzero
    rw [hb]
    have hfil : (a.zip (a.map fun x => -x)).filter
        (fun p => pySign p.1 == pySign p.2) = [] := by
      apply List.filter_eq_nil_iff.mpr
      intro p hp
      rw [List.zip_map_right] at hp
      obtain ⟨q, hq, rfl⟩ := List.mem_map.mp hp
      rw [list_zip_self] at hq
      obtain ⟨x, hx, rfl⟩ := List.mem_map.mp hq
      simp only [Prod.map, id_eq]
      rw [pySign_neg_beq x (hzero x hx)]
      simp
    rw [signAgreement, hfil]
    simp

/-- Witness for C5 at concrete inputs: identical composite lists agree with
fraction 1 and fully negated zero-free lists with fraction 0. -/
theorem C5_sign_agreement_witness :
    signAgreement [1, -2, 3] [1, -2, 3] = 1 ∧
    signAgreement [1, -2, 3] [-1, 2, -3] = 0 := by
  constructor
  · exact (C5_sign_agreement [1, -2, 3] [1, -2, 3] (by decide)).2.1 rfl
  · refine (C5_sign_agreement [1, -2, 3] [-1, 2, -3] (by decide)).2.2 ?_ ?_
    · norm_num
    · intro x hx
      fin_cases hx <;> norm_num

/-- C6 counterexample: the `EnsoAlphaLhf` output record carries the key
`method_nonlinearity`, which is neither in the spec's fixed key set nor among
the optional additions the spec allows
(src/lib/EnsoMetricsLib.py lines 2488-2493). -/
theorem C6_record_keys_counterexample :
    ("EnsoAlphaLhf", alphaMetricKeys) ∈ metricOutputKeys ∧
    "method_nonlinearity" ∈ alphaMetricKeys ∧
    "method_nonlinearity" ∉ specCoreKeys ∧
    "method_nonlinearity" ∉ specOptionalKeys ∧
    recordKeysConform specOptionalKeys alphaMetricKeys = false := by
  decide

/-- C6 as amended: every metric function's output record carries the full
fixed key set (name, value, value_error, units, method, nyears or
nyears_model/nyears_observations, time_frequency, time_period or
time_period_model/time_period_observations, ref), and every further key is
one of nonlinearity, nonlinearity_error, method_nonlinearity, value2,
value_error2, units2, dive_down_diag, events_model, events_observations,
nina_model, nino_model, nina_observations, nino_observations. -/
theorem C6_record_keys_amended :
    metricOutputKeys.all
      (fun p => recordKeysConform actualOptionalKeys p.2) = true := by
  decide

theorem kwLookup_cons (k0 : String) (v0 : PyVal)
    (rest : List (String × PyVal)) (k : String) :
    kwLookup ((k0, v0) :: rest) k =
      if k0 = k then some v0 else kwLookup rest k := by
  by_cases h : k0 = k
  · subst h
    simp [kwLookup, List.find?]
  · have hb : (k0 == k) = false := by simp [h]
    simp [kwLookup, List.find?, hb, h]

theorem kwLookup_kwSet_self (kwargs : List (String × PyVal)) (k : String)
    (v : PyVal) : kwLookup (kwSet kwargs k v) k = some v := by
  induction kwargs with
  | nil => simp [kwSet, kwLookup_cons, kwLookup]
  | cons p rest ih =>
    obtain ⟨k0, v0⟩ := p
    by_cases h : k0 = k
    · subst h
      simp [kwSet, kwLookup_cons]
    · simp only [kwSet, beq_iff_eq, if_neg h]
      rw [kwLookup_cons, if_neg h]
      exact ih

theorem kwLookup_kwSet_ne (kwargs : List (String × PyVal)) (k : String)
    (v : PyVal) (a : String) (h : a ≠ k) :
    kwLookup (kwSet kwargs k v) a = kwLookup kwargs a := by
  induction kwargs with
  | nil =>
    simp only [kwSet]
    rw [kwLookup_cons, if_neg fun e => h e.symm]
  | cons p rest ih =>
    obtain ⟨k0, v0⟩ := p
    by_cases hk : k0 = k
    · subst hk
      simp only [kwSet, beq_self_eq_true, if_pos]
      rw [kwLookup_cons, kwLookup_cons, if_neg (fun e => h e.symm),
        if_neg (fun e => h e.symm)]
    · simp only [kwSet, beq_iff_eq, if_neg hk]
      rw [kwLookup_cons, kwLookup_cons]
      by_cases h0 : k0 = a
      · simp [h0]
      · rw [if_neg h0, if_neg h0]
        exact ih

theorem kwLookup_fill_of_present (defaults : String → PyVal)
    (needed : List String) (kwargs : List (String × PyVal)) (a : String)
    (v : PyVal) (h : kwLookup kwargs a = some v) :
    kwLookup (fillNeededKwargs defaults needed kwargs) a = some v := by
  induction needed generalizing kwargs with
  | nil => simpa [fillNeededKwargs] using h
  | cons b rest ih =>
    simp only [fillNeededKwargs]
    by_cases hb : (kwLookup kwargs b).isSome
    · rw [if_pos hb]
      exact ih kwargs h
    · rw [if_neg hb]
      apply ih
      by_cases hba : b = a
      · subst hba
        rw [h] at hb
        simp at hb
      · rw [kwLookup_kwSet_ne kwargs b (defaults b) a (fun e => hba e.symm)]
        exact h

theorem kwLookup_fill_of_not_mem (defaults : String → PyVal)
    (needed : List String) (kwargs : List (String × PyVal)) (a : String)
    (h : a ∉ needed) :
    kwLookup (fillNeededKwargs defaults needed kwargs) a = kwLookup kwargs a := by
  induction needed generalizing kwargs with
  | nil => rfl
  | cons b rest ih =>
    have hab : a ≠ b := fun e => h (e ▸ List.mem_cons_self b rest)
    have hrest : a ∉ rest := fun hm => h (List.mem_cons_of_mem b hm)
    simp only [fillNeededKwargs]
    by_cases hb : (kwLookup kwargs b).isSome
    · rw [if_pos hb]
      exact ih kwargs hrest
    · rw [if_neg hb, ih _ hrest]
      exact kwLookup_kwSet_ne kwargs b (defaults b) a hab

theorem kwLookup_fill_of_mem_absent (defaults : String → PyVal)
    (needed : List String) (kwargs : List (String × PyVal)) (a : String)
    (hmem : a ∈ needed) (habs : kwLookup kwargs a = Option.none) :
    kwLookup (fillNeededKwargs defaults needed kwargs) a =
      some (defaults a) := by
  induction needed generalizing kwargs with
  | nil => cases hmem
  | cons b rest ih =>
    simp only [fillNeededKwargs]
    by_cases hba : b = a
    · subst hba
      rw [if_neg (by simp [habs])]
      exact kwLookup_fill_of_present defaults rest _ b (defaults b)
        (kwLookup_kwSet_self kwargs b (defaults b))
    · have hmem1 : a ∈ rest := by
        rcases List.mem_cons.mp hmem with h1 | h1
        · exact absurd h1.symm hba
        · exact h1
      by_cases hb : (kwLookup kwargs b).isSome
      · rw [if_pos hb]
        exact ih kwargs hmem1 habs
      · rw [if_neg hb]
        apply ih _ hmem1
        rw [kwLookup_kwSet_ne kwargs b (defaults b) a (fun e => hba e.symm)]
        exact habs

/-- C9: `NinaSstLonRmse` and `NinoSstLonRmse` omit `regridding` from their
`needed_kwarg` lists yet later read `kwargs['regridding']` unconditionally,
so calling them without an explicit `regridding` keyword reaches the
regridding step with the key still missing (an uncaught KeyError), whereas
the Bias*Rmse and Seasonal*Rmse functions list `regridding` and therefore
find the filled default (src/lib/EnsoMetricsLib.py lines 4434-4441,
4659-4665, 4800-4803, 5026-5032 versus lines 121-122 and twelve twins). -/
theorem C9_lon_rmse_missing_regridding (defaults : String → PyVal)
    (kwargs : List (String × PyVal))
    (h : kwLookup kwargs "regridding" = Option.none) :
    ("regridding" ∉ ninaSstLonRmseNeededKwarg ∧
      "regridding" ∉ ninoSstLonRmseNeededKwarg ∧
      "regridding" ∈ rmseNeededKwarg) ∧
    getKwarg (fillNeededKwargs defaults ninaSstLonRmseNeededKwarg kwargs)
        "regridding" = Except.error "regridding" ∧
    getKwarg (fillNeededKwargs defaults ninoSstLonRmseNeededKwarg kwargs)
        "regridding" = Except.error "regridding" ∧
    getKwarg (fillNeededKwargs defaults rmseNeededKwarg kwargs) "regridding" =
      Except.ok (defaults "regridding") := by
  refine ⟨⟨by decide, by decide, by decide⟩, ?_, ?_, ?_⟩
  · rw [getKwarg, kwLookup_fill_of_not_mem defaults ninaSstLonRmseNeededKwarg
      kwargs "regridding" (by decide), h]
  · rw [getKwarg, kwLookup_fill_of_not_mem defaults ninoSstLonRmseNeededKwarg
      kwargs "regridding" (by decide), h]
  · rw [getKwarg, kwLookup_fill_of_mem_absent defaults rmseNeededKwarg
      kwargs "regridding" (by decide) h]

/-- Witness for C9 at a concrete call with no `regridding` keyword: the
NinaSstLonRmse fill leaves the lookup failing while the BiasSstRmse fill
supplies the default. -/
theorem C9_lon_rmse_missing_regridding_witness :
    getKwarg (fillNeededKwargs (fun _ => PyVal.bool false)
        ninaSstLonRmseNeededKwarg []) "regridding" =
      Except.error "regridding" ∧
    getKwarg (fillNeededKwargs (fun _ => PyVal.bool false) rmseNeededKwarg [])
        "regridding" = Except.ok (PyVal.bool false) := by
  have h := C9_lon_rmse_missing_regridding (fun _ => PyVal.bool false) [] rfl
  exact ⟨h.2.1, h.2.2.2⟩

/-- C10: inside `EnsoPrJjaTel` the precipitation (composite) phase always
sees `smoothing = False`, the SST (event-detection) phase sees the caller's
smoothing configuration, and the kwargs dict left behind on return carries
the caller's original value (src/lib/EnsoMetricsLib.py lines 4038-4041 and
4148-4150). -/
theorem C10_smoothing_saved_and_restored (defaults : String → PyVal)
    (kwargs0 : List (String × PyVal)) (v : PyVal)
    (h : kwLookup kwargs0 "smoothing" = some v) :
    (ensoPrJjaTelSmoothingFlow defaults kwargs0).sstPhaseSmoothing = some v ∧
    (ensoPrJjaTelSmoothingFlow defaults kwargs0).prPhaseSmoothing =
      some (PyVal.bool false) ∧
    kwLookup (ensoPrJjaTelSmoothingFlow defaults kwargs0).finalKwargs
      "smoothing" = some v := by
  have h1 : kwLookup (fillNeededKwargs defaults ensoPrJjaTelNeededKwarg kwargs0)
      "smoothing" = some v :=
    kwLookup_fill_of_present defaults ensoPrJjaTelNeededKwarg kwargs0
      "smoothing" v h
  simp [ensoPrJjaTelSmoothingFlow, h1, kwLookup_kwSet_self]

/-- Witness for C10 at a concrete call passing a smoothing dict: the
precipitation phase sees False and the final kwargs carry the original
dict. -/
theorem C10_smoothing_saved_and_restored_witness :
    (ensoPrJjaTelSmoothingFlow (fun _ => PyVal.bool false)
        [("smoothing", PyVal.dict [("window", PyVal.int 5)])]).prPhaseSmoothing =
      some (PyVal.bool false) ∧
    kwLookup (ensoPrJjaTelSmoothingFlow (fun _ => PyVal.bool false)
        [("smoothing", PyVal.dict [("window", PyVal.int 5)])]).finalKwargs
      "smoothing" = some (PyVal.dict [("window", PyVal.int 5)]) := by
  have h := C10_smoothing_saved_and_restored (fun _ => PyVal.bool false)
    [("smoothing", PyVal.dict [("window", PyVal.int 5)])]
    (PyVal.dict [("window", PyVal.int 5)]) rfl
  exact ⟨h.2.1, h.2.2⟩

/-- C7: when the preferred reference dataset is absent, the plotting driver
falls back to ERA-Interim and then to ERA-Interim_ERA-Interim, emitting a
warning whenever an ok result comes from this fallback path, and fails with
an error naming project, metric collection, model and metric when neither
fallback name is available (src/plots/driver_portraitplot.py lines 326-352
and 165-170). -/
theorem C7_reference_fallback (project mc model metric ref : String)
    (listRef : List String) (h : ref ∉ listRef) :
    ("ERA-Interim" ∈ listRef →
      selectReference project mc model metric ref listRef =
        Except.ok ("ERA-Interim", true)) ∧
    ("ERA-Interim" ∉ listRef → "ERA-Interim_ERA-Interim" ∈ listRef →
      selectReference project mc model metric ref listRef =
        Except.ok ("ERA-Interim_ERA-Interim", true)) ∧
    ("ERA-Interim" ∉ listRef → "ERA-Interim_ERA-Interim" ∉ listRef →
      selectReference project mc model metric ref listRef =
        Except.error ⟨project, mc, model, metric, listRef⟩) ∧
    (∀ r : String × Bool,
      selectReference project mc model metric ref listRef = Except.ok r →
        r.2 = true) := by
  refine ⟨?_, ?_, ?_, ?_⟩
  · intro h1
    simp [selectReference, h, h1]
  · intro h1 h2
    simp [selectReference, h, h1, h2]
  · intro h1 h2
    simp [selectReference, h, h1, h2]
  · intro r hr
    by_cases h1 : "ERA-Interim" ∈ listRef
    · simp [selectReference, h, h1] at hr
      simp [← hr]
    · by_cases h2 : "ERA-Interim_ERA-Interim" ∈ listRef
      · simp [selectReference, h, h1, h2] at hr
        simp [← hr]
      · simp [selectReference, h, h1, h2] at hr

/-- Witness for C7 at concrete inputs: with the preferred Tropflux missing,
an available ERA-Interim is chosen with the warning flag set, and an empty
overlap yields the fatal record naming project, collection, model and
metric. -/
theorem C7_reference_fallback_witness :
    selectReference "cmip5" "ENSO_perf" "CNRM-CM5" "EnsoAmpl" "Tropflux"
        ["ERA-Interim", "HadISST"] = Except.ok ("ERA-Interim", true) ∧
    selectReference "cmip5" "ENSO_perf" "CNRM-CM5" "EnsoAmpl" "Tropflux"
        ["GPCPv2.3"] =
      Except.error ⟨"cmip5", "ENSO_perf", "CNRM-CM5", "EnsoAmpl",
        ["GPCPv2.3"]⟩ := by
  constructor
  · exact (C7_reference_fallback "cmip5" "ENSO_perf" "CNRM-CM5" "EnsoAmpl"
      "Tropflux" ["ERA-Interim", "HadISST"] (by decide)).1 (by decide)
  · exact ((C7_reference_fallback "cmip5" "ENSO_perf" "CNRM-CM5" "EnsoAmpl"
      "Tropflux" ["GPCPv2.3"] (by decide)).2.2.1 (by decide) (by decide))

theorem globMatch_append (ps cs ps2 cs2 : List Char)
    (h : ps.length = cs.length) :
    globMatch (ps ++ ps2) (cs ++ cs2) =
      (globMatch ps cs && globMatch ps2 cs2) := by
  induction ps generalizing cs with
  | nil =>
    cases cs with
    | nil => simp [globMatch]
    | cons c cs => simp at h
  | cons p ps ih =>
    cases cs with
    | nil => simp at h
    | cons c cs =>
      have h2 : ps.length = cs.length := by simpa using h
      have e1 : globMatch ((p :: ps) ++ ps2) ((c :: cs) ++ cs2) =
          ((p == '?' || p == c) && globMatch (ps ++ ps2) (cs ++ cs2)) := rfl
      have e2 : globMatch (p :: ps) (c :: cs) =
          ((p == '?' || p == c) && globMatch ps cs) := rfl
      rw [e1, e2, ih cs h2, Bool.and_assoc]

theorem globMatch_self (l : List Char) : globMatch l l = true := by
  induction l with
  | nil => rfl
  | cons c cs ih => simp [globMatch, ih]

theorem globMatch_wild4 (lit suf : List Char) (d1 d2 d3 d4 : Char) :
    globMatch (lit ++ ('?' :: '?' :: '?' :: '?' :: suf))
      (lit ++ (d1 :: d2 :: d3 :: d4 :: suf)) = true := by
  rw [globMatch_append lit lit _ _ rfl]
  simp [globMatch_self, globMatch]

theorem filter_head_structure {α : Type} (q : α → Bool) (l : List α) (x : α)
    (h : (l.filter q).head? = some x) :
    q x = true ∧ ∃ pre post, l = pre ++ x :: post ∧
      ∀ g ∈ pre, q g = false := by
  induction l with
  | nil => simp [List.filter] at h
  | cons a l ih =>
    by_cases ha : q a
    · rw [List.filter_cons_of_pos ha] at h
      simp only [List.head?_cons, Option.some_inj] at h
      subst h
      exact ⟨ha, [], l, rfl, by simp⟩
    · rw [List.filter_cons_of_neg ha] at h
      obtain ⟨hx, pre, post, hl, hpre⟩ := ih h
      refine ⟨hx, a :: pre, post, by rw [hl, List.cons_append], ?_⟩
      intro g hg
      rcases List.mem_cons.mp hg with h1 | h1
      · subst h1
        exact Bool.of_not_eq_true ha
      · exact hpre g h1

/-- C8: the driver opens the first file matching the glob pattern
project_experiment_mc_v2019????_modified.json and reads each plotted number
at RESULTS, model, model name, value, metric name, metric, reference name,
value (src/plots/driver_portraitplot.py lines 297-304 and 321-356): every
name of that shape with four arbitrary version characters matches the
pattern, the selected file is the first matching directory entry, and the
indexing path recovers the stored value from a document of the interchange
shape. -/
theorem C8_driver_json_reading (project experiment mc : String)
    (files : List String) (model met ref : String) (v : Json) :
    (∀ d1 d2 d3 d4 : Char,
      globMatchStr (jsonGlobPattern project experiment mc)
        (project ++ "_" ++ experiment ++ "_" ++ mc ++ "_v2019" ++
          String.mk [d1, d2, d3, d4] ++ "_modified.json") = true) ∧
    (∀ f, selectJsonFile files project experiment mc = some f →
      globMatchStr (jsonGlobPattern project experiment mc) f = true ∧
      ∃ pre post, files = pre ++ f :: post ∧
        ∀ g ∈ pre,
          globMatchStr (jsonGlobPattern project experiment mc) g = false) ∧
    readPlottedValue (mkResultsJson model met ref v) model met ref =
      some v := by
  refine ⟨?_, ?_, ?_⟩
  · intro d1 d2 d3 d4
    have hpat : (jsonGlobPattern project experiment mc).data =
        (project ++ "_" ++ experiment ++ "_" ++ mc ++ "_v2019").data ++
          ('?' :: '?' :: '?' :: '?' :: ("_modified.json" : String).data) := by
      simp [jsonGlobPattern, String.data_append]
    have hcand : (project ++ "_" ++ experiment ++ "_" ++ mc ++ "_v2019" ++
        String.mk [d1, d2, d3, d4] ++ "_modified.json").data =
        (project ++ "_" ++ experiment ++ "_" ++ mc ++ "_v2019").data ++
          (d1 :: d2 :: d3 :: d4 :: ("_modified.json" : String).data) := by
      simp [String.data_append]
    rw [globMatchStr, hpat, hcand]
    exact globMatch_wild4 _ _ d1 d2 d3 d4
  · intro f hf
    obtain ⟨hq, pre, post, hl, hpre⟩ :=
      filter_head_structure _ files f hf
    exact ⟨hq, pre, post, hl, hpre⟩
  · simp [readPlottedValue, mkResultsJson, Json.get]

/-- Witness for C8 at concrete inputs: a concrete directory whose second
entry has the required shape is selected (the first entry does not match),
and the stored value is recovered through the indexing path. -/
theorem C8_driver_json_reading_witness :
    globMatchStr (jsonGlobPattern "cmip5" "historical" "ENSO_perf")
      ("cmip5" ++ "_" ++ "historical" ++ "_" ++ "ENSO_perf" ++ "_v2019" ++
        String.mk ['0', '3', '1', '5'] ++ "_modified.json") = true ∧
    globMatchStr (jsonGlobPattern "cmip5" "historical" "ENSO_perf")
      "cmip5_historical_ENSO_perf_v20190315_modified.json" = true ∧
    readPlottedValue
      (mkResultsJson "CNRM-CM5" "EnsoAmpl" "Tropflux" (Json.num 1))
      "CNRM-CM5" "EnsoAmpl" "Tropflux" = some (Json.num 1) := by
  have h := C8_driver_json_reading "cmip5" "historical" "ENSO_perf"
    ["notes.txt", "cmip5_historical_ENSO_perf_v20190315_modified.json"]
    "CNRM-CM5" "EnsoAmpl" "Tropflux" (Json.num 1)
  refine ⟨h.1 '0' '3' '1' '5', ?_, h.2.2⟩
  exact (h.2.1 "cmip5_historical_ENSO_perf_v20190315_modified.json"
    (by decide)).1

theorem getD_range_map (n j : ℕ) (f : ℕ → ℚ) (hj : j < n) :
    ((List.range n).map f).getD j 0 = f j := by
  rw [List.getD_eq_getElem?_getD, List.getElem?_map, List.getElem?_range hj]
  rfl

theorem compositeWindow_isSome_iff (series : List ℚ) (w y : ℕ) :
    (compositeWindow series w y).isSome ↔
      (w / 2 ≤ y ∧ 12 * (y - w / 2) + 12 * w ≤ series.length) := by
  simp only [compositeWindow]
  split
  · next hP =>
    obtain ⟨h1, h2⟩ := hP
    simp only [Option.isSome_some, true_iff]
    exact ⟨by omega, by omega⟩
  · next hP =>
    simp only [Option.isSome_none, Bool.false_eq_true, false_iff]
    intro hcon
    obtain ⟨h1, h2⟩ := hcon
    exact hP ⟨by omega, by omega⟩

theorem compositeWindow_some (series : List ℚ) (w y : ℕ) (win : List ℚ)
    (h : compositeWindow series w y = some win) :
    w / 2 ≤ y ∧ 12 * (y - w / 2) + 12 * w ≤ series.length ∧
      ∀ j, j < 12 * w →
        win.getD j 0 = series.getD (12 * (y - w / 2) + j) 0 := by
  simp only [compositeWindow] at h
  split at h
  · next hP =>
    obtain ⟨h1, h2⟩ := hP
    have hw : ((List.range (12 * w)).map (fun j =>
        series.getD ((12 * ((y : ℤ) - (w / 2 : ℕ))).toNat + j) 0)) = win :=
      Option.some_inj.mp h
    refine ⟨by omega, by omega, ?_⟩
    intro j hj
    rw [← hw, getD_range_map _ _ _ hj]
    congr 1
    omega
  · cases h

theorem filterMap_window_map_getD (series : List ℚ) (w j : ℕ)
    (hj : j < 12 * w) (events : List ℕ) :
    (events.filterMap (compositeWindow series w)).map
        (fun win => win.getD j 0) =
      (events.filter (fun y => (compositeWindow series w y).isSome)).map
        (fun y => series.getD (12 * (y - w / 2) + j) 0) := by
  induction events with
  | nil => rfl
  | cons y ys ih =>
    cases hwin : compositeWindow series w y with
    | none =>
      rw [List.filterMap_cons_none hwin,
        List.filter_cons_of_neg (by simp [hwin]), ih]
    | some win =>
      rw [List.filterMap_cons_some hwin,
        List.filter_cons_of_pos (by simp [hwin]),
        List.map_cons, List.map_cons, ih]
      obtain ⟨h1, h2, h3⟩ := compositeWindow_some series w y win hwin
      rw [h3 j hj]

/-- C3: a year is flagged as an event exactly when its seasonal value, first
divided by the series' standard deviation when normalization is requested,
satisfies `threshold ≤ value` for the warm sign or `value ≤ threshold` for
the cold sign; in particular equality at the threshold counts and any value
strictly on the wrong side does not (src/lib/EnsoMetricsLib.py lines
4019-4023 and 5296-5298, with `DetectEvents` modelled from spec section
4.2). -/
theorem C3_event_threshold (series : List ℚ) (offs : List ℤ)
    (thr sigma : ℚ) (norm nino : Bool) (y : ℕ) (v : ℚ)
    (hy : y < series.length / 12)
    (hv : seasonalValue series offs y = some v) :
    (nino = true →
      (y ∈ detectEvents series offs thr norm sigma nino ↔
        thr ≤ (if norm then v / sigma else v))) ∧
    (nino = false →
      (y ∈ detectEvents series offs thr norm sigma nino ↔
        (if norm then v / sigma else v) ≤ thr)) := by
  constructor
  · rintro rfl
    rw [detectEvents, List.mem_filter, List.mem_range]
    simp [hv, hy]
  · rintro rfl
    rw [detectEvents, List.mem_filter, List.mem_range]
    simp [hv, hy]

theorem c3_getD (j : ℕ) (hj : j < 120) :
    c3Series[j]?.getD 0 =
      (if j = 11 ∨ j = 12 ∨ j = 13 then 1/4
       else if j = 23 ∨ j = 24 ∨ j = 25 then 1/2
       else if j = 35 ∨ j = 36 ∨ j = 37 then 3/4
       else -5) := by
  have h := getD_range_map 120 j (fun i =>
    if i = 11 ∨ i = 12 ∨ i = 13 then 1/4
    else if i = 23 ∨ i = 24 ∨ i = 25 then 1/2
    else if i = 35 ∨ i = 36 ∨ i = 37 then 3/4
    else -5) hj
  rw [List.getD_eq_getElem?_getD] at h
  rw [← c3Series] at h
  exact h

/-- Witness for C3 on the ten-year boundary scenario with threshold one
half: year 1 (seasonal value exactly one half) is an event, year 0
(seasonal value a quarter, just below) is not. -/
theorem C3_event_threshold_witness :
    1 ∈ detectEvents c3Series [0, 1, 2] (1/2) false 1 true ∧
    0 ∉ detectEvents c3Series [0, 1, 2] (1/2) false 1 true := by
  have hlen : c3Series.length = 120 := by simp [c3Series]
  have hv1 : seasonalValue c3Series [0, 1, 2] 1 = some (1/2) := by
    rw [seasonalValue]
    simp only [List.map_cons, List.map_nil, hlen]
    rw [if_pos]
    · norm_num [c3_getD, show Int.toNat 23 = 23 from rfl,
        show Int.toNat 24 = 24 from rfl, show Int.toNat 25 = 25 from rfl]
    · refine ⟨by simp, ?_⟩
      intro i hi
      fin_cases hi <;> norm_num
  have hv0 : seasonalValue c3Series [0, 1, 2] 0 = some (1/4) := by
    rw [seasonalValue]
    simp only [List.map_cons, List.map_nil, hlen]
    rw [if_pos]
    · norm_num [c3_getD, show Int.toNat 11 = 11 from rfl,
        show Int.toNat 12 = 12 from rfl, show Int.toNat 13 = 13 from rfl]
    · refine ⟨by simp, ?_⟩
      intro i hi
      fin_cases hi <;> norm_num
  constructor
  · have h1 := (C3_event_threshold c3Series [0, 1, 2] (1/2) 1 false true 1
      (1/2) (by rw [hlen]; norm_num) hv1).1 rfl
    rw [h1]
    norm_num
  · intro hmem
    have h0 := (C3_event_threshold c3Series [0, 1, 2] (1/2) 1 false true 0
      (1/4) (by rw [hlen]; norm_num) hv0).1 rfl
    rw [h0] at hmem
    norm_num at hmem

/-- C4: the windowed composite is a `12*w`-point series; an event year keeps
its window exactly when the window fits inside the record; a kept window has
the event's December at position `12*(w/2) + 11`; and every composite point
is the arithmetic mean over the retained events of the correspondingly
aligned monthly value, the out-of-bounds events contributing nothing
(src/lib/EnsoMetricsLib.py lines 5303-5313, with `Composite` modelled from
spec section 4.3). -/
theorem C4_windowed_composite (series : List ℚ) (events : List ℕ) (w : ℕ)
    (hw : 0 < w) :
    (compositeWindowed series events w).length = 12 * w ∧
    (∀ y, (compositeWindow series w y).isSome ↔
      (w / 2 ≤ y ∧ 12 * (y - w / 2) + 12 * w ≤ series.length)) ∧
    (∀ y win, compositeWindow series w y = some win →
      win.getD (12 * (w / 2) + 11) 0 = series.getD (12 * y + 11) 0) ∧
    (∀ j, j < 12 * w →
      (compositeWindowed series events w).getD j 0 =
        ((events.filter (fun y => (compositeWindow series w y).isSome)).map
            (fun y => series.getD (12 * (y - w / 2) + j) 0)).sum /
          ((events.filter
            (fun y => (compositeWindow series w y).isSome)).length : ℚ)) := by
  refine ⟨by simp [compositeWindowed], ?_, ?_, ?_⟩
  · intro y
    exact compositeWindow_isSome_iff series w y
  · intro y win hwin
    obtain ⟨h1, h2, h3⟩ := compositeWindow_some series w y win hwin
    rw [h3 _ (by omega)]
    congr 1
    omega
  · intro j hj
    have hmap := filterMap_window_map_getD series w j hj events
    have hlen := congrArg List.length hmap
    simp only [List.length_map] at hlen
    simp only [compositeWindowed]
    rw [getD_range_map _ _ _ hj, hmap, hlen]

/-- Witness for C4: in a five-year record no six-year window fits, so an
event in year 1 is dropped and the composite over the lone event year 1 is
degenerate; in a seven-year record the year-3 window is kept and carries the
December of year 3 at position 47. -/
theorem C4_windowed_composite_witness :
    (compositeWindowed c4Series [1] 6).length = 72 ∧
    (compositeWindow c4Series 6 1).isSome = false ∧
    (compositeWindowed c4Series [1] 6).getD 5 0 = 0 ∧
    (compositeWindow c4SeriesLong 6 3).map (fun win => win.getD 47 0) =
      some (c4SeriesLong.getD 47 0) := by
  have h := C4_windowed_composite c4Series [1] 6 (by norm_num)
  have hlong := C4_windowed_composite c4SeriesLong [3] 6 (by norm_num)
  have hlen : c4Series.length = 60 := by simp [c4Series]
  have hlenL : c4SeriesLong.length = 84 := by simp [c4SeriesLong]
  have hdrop : (compositeWindow c4Series 6 1).isSome = false := by
    rw [Bool.eq_false_iff]
    intro hs
    have h3 := (h.2.1 1).mp hs
    rw [hlen] at h3
    omega
  refine ⟨h.1, hdrop, ?_, ?_⟩
  · have h4 := h.2.2.2 5 (by norm_num)
    rw [h4, List.filter_cons_of_neg (by simp [hdrop]), List.filter_nil]
    simp
  · cases hwin : compositeWindow c4SeriesLong 6 3 with
    | none =>
      have hs : (compositeWindow c4SeriesLong 6 3).isSome := by
        rw [hlong.2.1 3, hlenL]
        norm_num
      rw [hwin] at hs
      simp at hs
    | some win =>
      have h5 := hlong.2.2.1 3 win hwin
      have h6 : (12 : ℕ) * (6 / 2) + 11 = 47 := by norm_num
      show some (win.getD 47 0) = some (c4SeriesLong.getD 47 0)
      rw [← h6, h5]
